import Mathlib

/-!
Shallow embedding of the failure-classification and remediation-decision
engine of the agentic-devops-healing repository, together with proofs about
the claims of its specification.

Modelling conventions:
* Python strings are Lean `String`s; substring tests, lower/upper casing and
  splitting are re-implemented to match CPython's behaviour on ASCII input.
* Python floats are modelled as `PyFloat`: an exact decimal fraction
  (`Dec`, an integer numerator over a power of ten, ordered by integer
  cross-multiplication, with `Dec.toRat` giving its rational value), a NaN
  or a signed infinity, with CPython's comparison semantics (NaN compares
  false to everything) and positional `min`/`max` (the builtins keep their
  first argument unless the second strictly beats it, so NaN in first
  position propagates); the engine only parses `float()` literals, compares
  against decimal thresholds and takes max/min, all order-exact here.
* Fallible collaborator calls (the text-completion service, PR creation) are
  modelled as `Except`/outcome values supplied as inputs; the side-effecting
  selector additionally returns a trace of the collaborator invocations it
  performed so that the arguments it passed can be inspected.
-/

/-- Substring test on character lists: true iff `pat` occurs contiguously in `l`. -/
def listContains (l pat : List Char) : Bool :=
  match l with
  | [] => pat.isEmpty
  | _ :: cs => pat.isPrefixOf l || listContains cs pat

/-- Python's `pat in s` substring test. -/
def containsStr (s pat : String) : Bool :=
  listContains s.toList pat.toList

/-- Python `str.replace(pat, repl)` (all non-overlapping occurrences, left to
right), on character lists, with explicit structural fuel: every step strictly
shortens the list, so fuel equal to the list length is never exhausted. Only
called with a nonempty pattern. -/
def replaceListAux (pat repl : List Char) : Nat → List Char → List Char
  | 0, l => l
  | _ + 1, [] => []
  | fuel + 1, c :: cs =>
      if pat.isPrefixOf (c :: cs) then
        repl ++ replaceListAux pat repl fuel (cs.drop (pat.length - 1))
      else c :: replaceListAux pat repl fuel cs

/-- Python `str.replace(pat, repl)` on strings. -/
def pyReplace (s pat repl : String) : String :=
  String.mk (replaceListAux pat.toList repl.toList s.toList.length s.toList)

/-- Python `str.startswith(pat)`. -/
def startsWithStr (s pat : String) : Bool := pat.toList.isPrefixOf s.toList

/-- Python `str.strip()` (ASCII whitespace model). -/
def pyStrip (s : String) : String :=
  String.mk (((s.toList.dropWhile Char.isWhitespace).reverse.dropWhile Char.isWhitespace).reverse)

/-- `split('\n')` on character lists; never returns an empty list. -/
def splitNl : List Char → List (List Char)
  | [] => [[]]
  | c :: cs =>
      match splitNl cs with
      | h :: t => if c = '\n' then [] :: h :: t else (c :: h) :: t
      | [] => [[c]]

/-- Python `str.split('\n')`. -/
def pySplitLines (s : String) : List String := (splitNl s.toList).map String.mk

/-- Python `str.split(sep)` for a nonempty separator, on character lists,
with the same structural-fuel convention as `replaceListAux`. -/
def splitOnListAux (sep : List Char) : Nat → List Char → List (List Char)
  | 0, _ => [[]]
  | _ + 1, [] => [[]]
  | fuel + 1, c :: cs =>
      if sep.isPrefixOf (c :: cs) then
        [] :: splitOnListAux sep fuel (cs.drop (sep.length - 1))
      else
        match splitOnListAux sep fuel cs with
        | h :: t => (c :: h) :: t
        | [] => [[c]]

/-- Python `str.split(sep)` on strings (nonempty separator). -/
def pySplit (s sep : String) : List String :=
  (splitOnListAux sep.toList s.toList.length s.toList).map String.mk

/-- Python's `str.lower()` (ASCII model). -/
def pyLower (s : String) : String := String.mk (s.toList.map Char.toLower)

/-- Python's `str.upper()` (ASCII model). -/
def pyUpper (s : String) : String := String.mk (s.toList.map Char.toUpper)

/-- An exact decimal fraction `num / 10 ^ exp`: the finite payload of the
Python floats flowing through the engine (parsed decimal literals, decimal
threshold constants, and their maxima/minima — no other float arithmetic
occurs). -/
structure Dec where
  num : ℤ
  exp : ℕ
deriving DecidableEq, Repr

/-- The rational value of a `Dec`. -/
def Dec.toRat (d : Dec) : ℚ := (d.num : ℚ) / 10 ^ d.exp

instance : LE Dec := ⟨fun a b => a.num * 10 ^ b.exp ≤ b.num * 10 ^ a.exp⟩

instance : LT Dec := ⟨fun a b => a.num * 10 ^ b.exp < b.num * 10 ^ a.exp⟩

instance (a b : Dec) : Decidable (a ≤ b) :=
  inferInstanceAs (Decidable (a.num * 10 ^ b.exp ≤ b.num * 10 ^ a.exp))

instance (a b : Dec) : Decidable (a < b) :=
  inferInstanceAs (Decidable (a.num * 10 ^ b.exp < b.num * 10 ^ a.exp))

instance : OfNat Dec n := ⟨⟨n, 0⟩⟩

instance : Neg Dec := ⟨fun d => ⟨-d.num, d.exp⟩⟩

instance : OfScientific Dec :=
  ⟨fun m s e => if s then ⟨m, e⟩ else ⟨m * 10 ^ e, 0⟩⟩

/-- Exact product; used only for the `confidence * 100` of the formatting
helpers. -/
instance : Mul Dec := ⟨fun a b => ⟨a.num * b.num, a.exp + b.exp⟩⟩

theorem Dec.le_iff_toRat (a b : Dec) : a ≤ b ↔ a.toRat ≤ b.toRat := by
  show a.num * 10 ^ b.exp ≤ b.num * 10 ^ a.exp ↔
    (a.num : ℚ) / 10 ^ a.exp ≤ (b.num : ℚ) / 10 ^ b.exp
  rw [div_le_div_iff₀ (by positivity) (by positivity)]
  constructor
  · intro h
    exact_mod_cast h
  · intro h
    exact_mod_cast h

theorem Dec.le_refl (a : Dec) : a ≤ a := Int.le_refl _

theorem Dec.le_trans {a b c : Dec} (h1 : a ≤ b) (h2 : b ≤ c) : a ≤ c := by
  rw [Dec.le_iff_toRat] at h1 h2 ⊢
  exact h1.trans h2

theorem Dec.not_lt_from_le {a b : Dec} (h : a ≤ b) : ¬ b < a := Int.not_lt.mpr h

theorem Dec.le_of_not_lt {a b : Dec} (h : ¬ a < b) : b ≤ a := Int.not_lt.mp h

/-- A CPython float value as it flows through the engine: an exact finite
decimal, a NaN, or a signed infinity. CPython's binary rounding, and the
OverflowError it raises on decimal literals whose value exceeds the double
range, are outside the model: every finite value is kept exact. -/
inductive PyFloat where
  | finite (d : Dec)
  | nan
  | inf
  | ninf
deriving DecidableEq, Repr

/-- CPython `<=` on floats: NaN compares false to everything (itself
included); the infinities bound every finite value. -/
def PyFloat.le : PyFloat → PyFloat → Bool
  | .nan, _ => false
  | _, .nan => false
  | .ninf, _ => true
  | _, .ninf => false
  | _, .inf => true
  | .inf, _ => false
  | .finite a, .finite b => decide (a ≤ b)

/-- CPython `<` on floats: NaN compares false to everything. -/
def PyFloat.lt : PyFloat → PyFloat → Bool
  | .nan, _ => false
  | _, .nan => false
  | _, .ninf => false
  | .ninf, _ => true
  | .inf, _ => false
  | _, .inf => true
  | .finite a, .finite b => decide (a < b)

instance : LE PyFloat := ⟨fun a b => PyFloat.le a b = true⟩

instance : LT PyFloat := ⟨fun a b => PyFloat.lt a b = true⟩

instance (a b : PyFloat) : Decidable (a ≤ b) :=
  inferInstanceAs (Decidable (PyFloat.le a b = true))

instance (a b : PyFloat) : Decidable (a < b) :=
  inferInstanceAs (Decidable (PyFloat.lt a b = true))

instance : OfNat PyFloat n := ⟨.finite ⟨n, 0⟩⟩

instance : Neg PyFloat :=
  ⟨fun x =>
    match x with
    | .finite d => .finite ⟨-d.num, d.exp⟩
    | .nan => .nan
    | .inf => .ninf
    | .ninf => .inf⟩

instance : OfScientific PyFloat :=
  ⟨fun m s e => .finite (OfScientific.ofScientific m s e)⟩

/-- CPython `max(a, b)`: the builtin keeps its first argument unless
`b > a`, so `a` wins ties and `max(nan, x)` is NaN (every comparison with
NaN is false). -/
instance : Max PyFloat := ⟨fun a b => if a < b then b else a⟩

/-- CPython `min(a, b)`: the builtin keeps its first argument unless
`b < a`, so `a` wins ties and `min(nan, x)` is NaN. -/
instance : Min PyFloat := ⟨fun a b => if b < a then b else a⟩

/-- Exact product with the IEEE special-value rules (NaN propagates,
infinity times zero is NaN); used only for the `confidence * 100` of the
formatting helpers. -/
def PyFloat.mul : PyFloat → PyFloat → PyFloat
  | .nan, _ => .nan
  | _, .nan => .nan
  | .finite a, .finite b => .finite (a * b)
  | .inf, .inf => .inf
  | .inf, .ninf => .ninf
  | .ninf, .inf => .ninf
  | .ninf, .ninf => .inf
  | .inf, .finite d => if 0 < d.num then .inf else if d.num < 0 then .ninf else .nan
  | .finite d, .inf => if 0 < d.num then .inf else if d.num < 0 then .ninf else .nan
  | .ninf, .finite d => if 0 < d.num then .ninf else if d.num < 0 then .inf else .nan
  | .finite d, .ninf => if 0 < d.num then .ninf else if d.num < 0 then .inf else .nan

instance : Mul PyFloat := ⟨PyFloat.mul⟩

theorem PyFloat.le_refl_of_ne_nan {a : PyFloat} (h : a ≠ .nan) : a ≤ a := by
  cases a with
  | nan => exact absurd rfl h
  | inf => exact rfl
  | ninf => exact rfl
  | finite d => exact decide_eq_true (Dec.le_refl d)

theorem PyFloat.not_lt_of_le {a b : PyFloat} (h : a ≤ b) : ¬ b < a := by
  intro hlt
  cases a <;> cases b <;>
    first
      | exact Bool.noConfusion h
      | exact Bool.noConfusion hlt
      | exact absurd (of_decide_eq_true hlt) (Dec.not_lt_from_le (of_decide_eq_true h))

/-- Strict-below a finite bound excludes at-least a finite bound no smaller:
the contraposition used for the disjoint confidence bands of the selector. -/
theorem PyFloat.not_le_of_lt_le {a : PyFloat} {b c : Dec} (hbc : b ≤ c)
    (h : a < .finite b) : ¬ .finite c ≤ a := by
  intro hle
  cases a with
  | nan => exact Bool.noConfusion h
  | inf => exact Bool.noConfusion h
  | ninf => exact Bool.noConfusion hle
  | finite d =>
      exact absurd (of_decide_eq_true h)
        (Dec.not_lt_from_le (Dec.le_trans hbc (of_decide_eq_true hle)))

theorem PyFloat.le_min_of {a b c : PyFloat} (h1 : c ≤ a) (h2 : c ≤ b) : c ≤ min a b := by
  show c ≤ (if b < a then b else a)
  split_ifs with h
  · exact h2
  · exact h1

theorem PyFloat.le_max_of {a b c : PyFloat} (h1 : c ≤ a) (h2 : c ≤ b) : c ≤ max a b := by
  show c ≤ (if a < b then b else a)
  split_ifs with h
  · exact h2
  · exact h1

theorem PyFloat.max_le_of {a b c : PyFloat} (h1 : a ≤ c) (h2 : b ≤ c) : max a b ≤ c := by
  show (if a < b then b else a) ≤ c
  split_ifs with h
  · exact h2
  · exact h1

theorem PyFloat.max_ne_nan {a b : PyFloat} (h1 : a ≠ .nan) (h2 : b ≠ .nan) :
    max a b ≠ .nan := by
  show (if a < b then b else a) ≠ .nan
  split_ifs with h
  · exact h2
  · exact h1

/-- The one-sided `min` bound: CPython `min(a, b) <= b` holds whenever `a`
is not NaN (with `a = nan` the result is NaN, which is below nothing). -/
theorem PyFloat.min_le_right_of_ne_nan {a : PyFloat} {d : Dec} (h : a ≠ .nan) :
    min a (.finite d) ≤ .finite d := by
  show (if (PyFloat.finite d) < a then (PyFloat.finite d) else a) ≤ PyFloat.finite d
  cases a with
  | nan => exact absurd rfl h
  | inf =>
      rw [if_pos (show (PyFloat.finite d) < .inf from rfl)]
      exact decide_eq_true (Dec.le_refl d)
  | ninf =>
      rw [if_neg (show ¬ (PyFloat.finite d) < .ninf from fun hc => nomatch hc)]
      exact rfl
  | finite e =>
      split_ifs with hlt
      · exact decide_eq_true (Dec.le_refl d)
      · exact decide_eq_true (Dec.le_of_not_lt (fun hde => hlt (decide_eq_true hde)))

/-- Scan a run of digits with CPython's underscore rule (a single `_` is
allowed only between two digits): accumulates the value and the digit count
and returns the remaining characters, or nothing when an underscore is not
followed by a digit. -/
def digitsGroupAux : ℕ → ℕ → List Char → Option (ℕ × ℕ × List Char)
  | acc, cnt, [] => some (acc, cnt, [])
  | acc, cnt, c :: cs =>
      if c.isDigit then digitsGroupAux (acc * 10 + (c.toNat - 48)) (cnt + 1) cs
      else if c = '_' then
        match cs with
        | d :: ds =>
            if d.isDigit then digitsGroupAux (acc * 10 + (d.toNat - 48)) (cnt + 1) ds
            else none
        | [] => none
      else some (acc, cnt, c :: cs)

/-- Models CPython `float()` applied to an already-stripped string: an
optional sign; then `nan`, `inf` or `infinity` compared case-insensitively,
or a decimal mantissa (integer digits, an optional `.` and fraction digits,
at least one digit in total, single underscores allowed between digits)
with an optional `e` or `E` exponent. The finite value
`sign * (int * 10 ^ fc + frac) * 10 ^ E / 10 ^ fc` is represented exactly;
CPython instead rounds it to binary and raises OverflowError beyond the
double range (a failure the caller's bare `except` absorbs like any other);
both sides of that divergence land inside the `[0, 0.95]` band after the
caps, so no theorem below leans on it. -/
def pyFloatOfString (s : String) : Option PyFloat :=
  let cs := s.toList
  let signRest : ℤ × List Char :=
    match cs with
    | '-' :: r => (-1, r)
    | '+' :: r => (1, r)
    | _ => (1, cs)
  let sign := signRest.1
  let rest := signRest.2
  let low := rest.map Char.toLower
  if low = "nan".toList then some PyFloat.nan
  else if low = "inf".toList || low = "infinity".toList then
    some (if sign = -1 then PyFloat.ninf else PyFloat.inf)
  else
    let intStep : Option (ℕ × ℕ × List Char) :=
      match rest with
      | c :: _ => if c.isDigit then digitsGroupAux 0 0 rest else some (0, 0, rest)
      | [] => some (0, 0, [])
    match intStep with
    | none => none
    | some (iv, ic, r1) =>
        let fracStep : Option (ℕ × ℕ × List Char) :=
          match r1 with
          | '.' :: r2 =>
              match r2 with
              | c :: _ => if c.isDigit then digitsGroupAux 0 0 r2 else some (0, 0, r2)
              | [] => some (0, 0, [])
          | _ => some (0, 0, r1)
        match fracStep with
        | none => none
        | some (fv, fc, r3) =>
            if ic + fc = 0 then none
            else
              let mantissa : ℤ := sign * ((iv : ℤ) * 10 ^ fc + (fv : ℤ))
              match r3 with
              | [] => some (PyFloat.finite ⟨mantissa, fc⟩)
              | e :: r4 =>
                  if e = 'e' ∨ e = 'E' then
                    let esignRest : ℤ × List Char :=
                      match r4 with
                      | '-' :: r5 => (-1, r5)
                      | '+' :: r5 => (1, r5)
                      | _ => (1, r4)
                    match esignRest.2 with
                    | c :: _ =>
                        if c.isDigit then
                          match digitsGroupAux 0 0 esignRest.2 with
                          | some (ev, _, []) =>
                              let k : ℤ := (fc : ℤ) - esignRest.1 * (ev : ℤ)
                              if k ≤ 0 then
                                some (PyFloat.finite ⟨mantissa * 10 ^ (-k).toNat, 0⟩)
                              else some (PyFloat.finite ⟨mantissa, k.toNat⟩)
                          | _ => none
                        else none
                    | [] => none
                  else none

/-!
## terraform_analyzer.py
-/

/-- Keyword list of `is_terraform_failure`. -/
def terraform_keywords : List String :=
  ["terraform",
   "Error: Missing required variable",
   "Error: Invalid location",
   "Error: Unsupported argument",
   "Error: Reference to undeclared",
   "azurerm_"]

/-- `is_terraform_failure(build_logs)`: case-insensitive keyword match. -/
def is_terraform_failure (build_logs : String) : Bool :=
  let logs_lower := pyLower build_logs
  terraform_keywords.any (fun k => containsStr logs_lower (pyLower k))

/-- `detect_error_pattern(build_logs)`: priority-ordered detector table
returning `(pattern_name, confidence_boost)` or nothing. -/
def detect_error_pattern (build_logs : String) : Option (String × PyFloat) :=
  if containsStr build_logs "Reference to undeclared input variable" then
    some ("TERRAFORM_MISSING_VARIABLE", 0.95)
  else if containsStr build_logs "was not found in the list of supported Azure Locations" then
    some ("TERRAFORM_WRONG_REGION", 0.90)
  else if (["Invalid character", "Extra characters after interpolation",
            "Missing closing brace"] : List String).any (fun s => containsStr build_logs s) then
    some ("TERRAFORM_SYNTAX_ERROR", 0.95)
  else none

/-- One pattern of the tiny regex sublanguage used by the autofix policy:
either a literal substring, or two literals separated by a greedy gap
(`a.*b`); a trailing `.*` in the source patterns matches vacuously and is
dropped. In Python `re`, `.` does not match a newline, so the gap must stay
on one line. -/
inductive RePat where
  | lit (s : String)
  | gap (a b : String)

/-- `re.search(a ++ ".*" ++ b, l)` succeeds iff some occurrence of `a` is
followed, with no intervening newline, by an occurrence of `b`. -/
def gapSearch (a b : List Char) (l : List Char) : Bool :=
  match l with
  | [] => false
  | _ :: cs =>
      (a.isPrefixOf l &&
        (let rest := l.drop a.length
         let line := rest.takeWhile (fun c => c ≠ '\n')
         listContains (rest.take (line.length + b.length)) b))
      || gapSearch a b cs

/-- `re.search(pat, s)` for the pattern sublanguage in the autofix policy. -/
def reSearch (p : RePat) (s : String) : Bool :=
  match p with
  | .lit t => containsStr s t
  | .gap a b => gapSearch a.toList b.toList s.toList

/-- The `auto_fixable_patterns` list of `can_be_autofixed`. -/
def auto_fixable_patterns : List RePat :=
  [.gap "variable " " was not set",
   .gap "variable " " not defined",
   .lit "missing required variable",
   .lit "invalid region",
   .lit "wrong region",
   .gap "should be " " not ",
   .gap "expected " " got ",
   .lit "invalid location"]

/-- The `manual_review_patterns` list of `can_be_autofixed`. -/
def manual_review_patterns : List RePat :=
  [.lit "syntax error",
   .gap "expected " " block",
   .lit "missing closing brace",
   .lit "unexpected token",
   .lit "authentication failed",
   .lit "state conflict",
   .lit "state locked"]

/-- `can_be_autofixed(error_message, category)`: the Autofix Policy. The
auto-fixable pattern loop runs first and returns true on a match; only then
does the manual-review loop run; otherwise the category default applies. -/
def can_be_autofixed (error_message category : String) : Bool :=
  let error_lower := pyLower error_message
  if auto_fixable_patterns.any (fun p => reSearch p error_lower) then true
  else if manual_review_patterns.any (fun p => reSearch p error_lower) then false
  else if (["TERRAFORM_MISSING_VARIABLE", "TERRAFORM_WRONG_REGION"] : List String).contains category then
    true
  else false

/-- State of the structured-field scan in `analyze_with_ai`. -/
structure ParseState where
  category : String
  confidence : PyFloat
  can_autofix : Bool
deriving DecidableEq, Repr

/-- The value assigned by a `CONFIDENCE:` line:
`float(line.replace('CONFIDENCE:','').strip())`, falling back to `0.7` when
the literal does not parse (the bare `except` of the source). -/
def pyFloatConfLine (line : String) : PyFloat :=
  (pyFloatOfString (pyStrip (pyReplace line "CONFIDENCE:" ""))).getD 0.7

/-- One iteration of the `for line in response.split('\n')` field scan. -/
def parseLine (st : ParseState) (line : String) : ParseState :=
  if startsWithStr line "CATEGORY:" then
    let category_text := pyStrip (pyReplace line "CATEGORY:" "")
    if containsStr (pyLower category_text) "configuration" then
      { st with category := "TERRAFORM_MISSING_VARIABLE" }
    else if containsStr (pyLower category_text) "syntax" then
      { st with category := "TERRAFORM_SYNTAX_ERROR" }
    else st
  else if startsWithStr line "CONFIDENCE:" then
    { st with confidence := pyFloatConfLine line }
  else if startsWithStr line "CAN_AUTOFIX:" then
    let autofix_text := pyLower (pyStrip (pyReplace line "CAN_AUTOFIX:" ""))
    { st with can_autofix := (["true", "yes", "1"] : List String).contains autofix_text }
  else st

/-- The structured-field scan of `analyze_with_ai`, before the keyword
overrides: defaults are category `TERRAFORM_ERROR`, confidence `0.7`,
can_autofix `False`. -/
def parseAIResponse (response : String) : ParseState :=
  (pySplitLines response).foldl parseLine
    { category := "TERRAFORM_ERROR", confidence := 0.7, can_autofix := false }

/-- The classification result dictionary produced by the analyzers. -/
structure RcaResult where
  category : String
  confidence : PyFloat
  explanation : String
  can_autofix : Bool
  suggested_fix : Option String
deriving DecidableEq, Repr

/-- `analyze_with_ai(failure_info, openai_client)` from the terraform
analyzer. The `completion` argument models the outcome of the awaited
completion call: `.ok response` or `.error e` for a raised exception whose
text is `e`. The prompt assembly and log truncation affect only the text sent
to the collaborator, not the returned fields, so they are not re-modelled.
The `explanation` field is the whole response: the scan loop has no
`EXPLANATION:` branch. -/
def analyze_with_ai (completion : Except String String) : RcaResult :=
  match completion with
  | .error e =>
      { category := "UNKNOWN_ERROR", confidence := 0.3,
        explanation := "Error analyzing with AI: " ++ e,
        can_autofix := false, suggested_fix := none }
  | .ok response =>
      let st := parseAIResponse response
      let explanation := response
      let explanation_lower := pyLower explanation
      let s1 : ParseState :=
        if containsStr explanation_lower "missing" && containsStr explanation_lower "variable" then
          { category := "TERRAFORM_MISSING_VARIABLE",
            confidence := max st.confidence 0.85, can_autofix := true }
        else st
      let s2 : ParseState :=
        if (["wrong region", "invalid region", "incorrect region",
             "not found in the list"] : List String).any
            (fun w => containsStr explanation_lower w) then
          { category := "TERRAFORM_WRONG_REGION",
            confidence := max s1.confidence 0.85, can_autofix := true }
        else s1
      let s3 : ParseState :=
        if (["syntax error", "missing brace", "invalid character",
             "unexpected token"] : List String).any
            (fun w => containsStr explanation_lower w) then
          { category := "TERRAFORM_SYNTAX_ERROR",
            confidence := max s2.confidence 0.90, can_autofix := false }
        else s2
      { category := s3.category,
        confidence := min s3.confidence 0.95,
        explanation := explanation,
        can_autofix := s3.can_autofix,
        suggested_fix := none }

/-- The category whitelist consulted by the final autofix re-derivation in
`analyze_terraform_failure`. -/
def AUTO_FIXABLE : List String :=
  ["TERRAFORM_MISSING_VARIABLE", "TERRAFORM_WRONG_REGION",
   "TERRAFORM_WRONG_VALUE", "Configuration Error"]

/-- `analyze_terraform_failure(failure_info, openai_client)`: the Terraform
classification pipeline. Returns `none` for non-Terraform logs (Python
`None`). The boolean grouping in the explanation-based syntax check follows
Python operator precedence: `a and b or c` is `(a and b) or c`. -/
def analyze_terraform_failure (build_logs : String)
    (completion : Except String String) : Option RcaResult :=
  if !is_terraform_failure build_logs then none
  else
    let hint := detect_error_pattern build_logs
    let result := analyze_with_ai completion
    let result :=
      match hint with
      | some (pattern, pattern_confidence) =>
          if pattern_confidence ≥ 0.90 then
            if result.category ≠ pattern then
              { result with category := pattern,
                            confidence := max result.confidence pattern_confidence }
            else result
          else result
      | none => result
    let category := result.category
    let explanation := pyLower result.explanation
    let is_syntax_error :=
      containsStr (pyUpper category) "SYNTAX" || category = "TERRAFORM_SYNTAX_ERROR"
    let is_syntax_error :=
      if !is_syntax_error then
        (containsStr explanation "syntax error" &&
         containsStr explanation "missing closing brace")
        || containsStr explanation "invalid character"
      else is_syntax_error
    if is_syntax_error then
      some { result with can_autofix := false }
    else
      let can_autofix :=
        AUTO_FIXABLE.contains category
        || (containsStr explanation "missing" && containsStr explanation "variable")
        || containsStr explanation "wrong region"
        || containsStr explanation "invalid region"
      some { result with can_autofix := can_autofix }

/-!
## code_generator.py
-/

/-- Strip a literal pattern from the front of `l`, comparing case-insensitively
(Python `re.IGNORECASE` on a literal); returns the remainder of the original
characters. -/
def stripPrefixCI : List Char → List Char → Option (List Char)
  | [], l => some l
  | _ :: _, [] => none
  | p :: ps, c :: cs => if c.toLower = p.toLower then stripPrefixCI ps cs else none

/-- First character class `[a-z_]` under `re.IGNORECASE` (ASCII model). -/
def isNameStartChar (c : Char) : Bool := c.isAlpha || c = '_'

/-- Character class `[a-z0-9_]` under `re.IGNORECASE` (ASCII model). -/
def isNameChar (c : Char) : Bool := c.isAlphanum || c = '_'

/-- Attempt the priority-1 pattern
`variable with the name ["']([a-z_][a-z0-9_]*)["']` at the start of `l`,
returning the captured group. A shorter-than-maximal name run cannot be
followed by a quote, so only the maximal run needs checking. -/
def tryNamedVarHere (l : List Char) : Option (List Char) :=
  (stripPrefixCI "variable with the name ".toList l).bind fun r =>
    match r with
    | q :: c :: cs =>
        if (q = '"' || q = '\'') && isNameStartChar c then
          let run := cs.takeWhile isNameChar
          match cs.drop run.length with
          | q2 :: _ => if q2 = '"' || q2 = '\'' then some (c :: run) else none
          | [] => none
        else none
    | _ => none

/-- Leftmost `re.search` for the priority-1 variable-name pattern. -/
def scanNamedVar : List Char → Option (List Char)
  | [] => none
  | c :: cs => (tryNamedVarHere (c :: cs)).orElse fun _ => scanNamedVar cs

/-- Attempt the pattern (raw) `var\.([a-z_][a-z0-9_]*)` at the start of `l`,
returning the captured group and the remainder after the whole match
(Python `findall` resumes scanning there). -/
def tryVarRefHere (l : List Char) : Option (List Char × List Char) :=
  (stripPrefixCI "var.".toList l).bind fun r =>
    match r with
    | c :: cs =>
        if isNameStartChar c then
          some (c :: cs.takeWhile isNameChar, cs.dropWhile isNameChar)
        else none
    | [] => none

/-- Python `re.findall` of the `var.NAME` pattern over the logs (IGNORECASE):
non-overlapping leftmost matches, scanning resumes after each match. A
successful `tryVarRefHere` consumes at least the four pattern characters, so
structural fuel equal to the list length is never exhausted. -/
def findVarRefsAux : Nat → List Char → List (List Char)
  | 0, _ => []
  | fuel + 1, l =>
      match tryVarRefHere l with
      | some (n, rest) => n :: findVarRefsAux fuel rest
      | none =>
          match l with
          | [] => []
          | _ :: cs => findVarRefsAux fuel cs

/-- The full `re.findall` scan of `extract_variable_name`. -/
def findVarRefs (l : List Char) : List (List Char) := findVarRefsAux l.length l

/-- Distinct values in first-occurrence order (insertion order of a Python
`Counter`'s keys). -/
def firstSeenKeys (l : List (List Char)) : List (List Char) :=
  l.foldl (fun acc x => if acc.contains x then acc else acc ++ [x]) []

/-- `Counter(matches).most_common(1)[0][0]`: the key with the greatest count;
CPython's stable sort keeps the first-inserted key on ties. -/
def mostCommonVar (l : List (List Char)) : Option (List Char) :=
  (firstSeenKeys l).foldl
    (fun best x =>
      match best with
      | none => some x
      | some b => if l.count x > l.count b then some x else best)
    none

/-- `extract_variable_name(build_logs)`: priority-1 literal error phrase, then
the `var.NAME` frequency fallback, else `None`. -/
def extract_variable_name (build_logs : String) : Option String :=
  match scanNamedVar build_logs.toList with
  | some var_name => some (String.mk var_name)
  | none =>
      let found := findVarRefs build_logs.toList
      if !found.isEmpty then (mostCommonVar found).map String.mk
      else none

/-- The path character class of the generator regexes: word characters, the
hyphen and the slash (ASCII model). -/
def isPathChar (c : Char) : Bool := c.isAlphanum || c = '_' || c = '-' || c = '/'

/-- Consume one `[^/]+/` segment: a nonempty run without `/`, then `/`. -/
def segSlash (l : List Char) : Option (List Char) :=
  let run := l.takeWhile (fun c => c ≠ '/')
  if run.isEmpty then none
  else
    match l.drop run.length with
    | '/' :: rest => some rest
    | _ => none

/-- Generic leftmost `re.search` scan for a pattern beginning with the
case-insensitive literal `pat`: at each occurrence of `pat` the continuation
`f` is tried on the remainder; on failure the scan resumes one character
further. -/
def scanCI (pat : List Char) (f : List Char → Option String) : List Char → Option String
  | [] => none
  | c :: cs =>
      match stripPrefixCI pat (c :: cs) with
      | some rest => (f rest).orElse fun _ => scanCI pat f cs
      | none => scanCI pat f cs

/-- The latest-starting successful match of `tryHere` in `line` (the residue
of a greedy `.*` or `[^\n]*` before a capture group: backtracking shortens the
gap from the right, so the last viable start wins). -/
def lastMatchIn (tryHere : List Char → Option String) : List Char → Option String
  | [] => none
  | c :: cs =>
      match lastMatchIn tryHere cs with
      | some r => some r
      | none => tryHere (c :: cs)

/-- Continuation of strategy 1 after the literal `Working directory:`:
optional whitespace, a slash, four nonempty slash-terminated segments, then
the capture group: the literal `infrastructure/` followed by a nonempty run
of path characters. Segment splits are forced, so no backtracking arises.
The capture keeps the original characters. -/
def tryWorkingDirHere (l : List Char) : Option String :=
  let s1 := l.dropWhile Char.isWhitespace
  match s1 with
  | '/' :: r1 =>
      (segSlash r1).bind fun r2 =>
      (segSlash r2).bind fun r3 =>
      (segSlash r3).bind fun r4 =>
      (segSlash r4).bind fun r5 =>
      (stripPrefixCI "infrastructure/".toList r5).bind fun after =>
      let run := after.takeWhile isPathChar
      if run.isEmpty then none else some (String.mk (r5.take 15 ++ run))
  | _ => none

/-- Strategy 1 of `determine_filepath`: case-insensitive search for a
`Working directory:` line whose path has four leading segments before an
`infrastructure/` suffix, capturing that suffix. -/
def workingDirStrategy (build_logs : String) : Option String :=
  scanCI "working directory:".toList tryWorkingDirHere build_logs.toList

/-- Capture group `infrastructure/test-apps/` plus a nonempty run of path
characters, anchored at the start of `l`. -/
def tryInfraTestAppsHere (l : List Char) : Option String :=
  (stripPrefixCI "infrastructure/test-apps/".toList l).bind fun after =>
    let run := after.takeWhile isPathChar
    if run.isEmpty then none else some (String.mk (l.take 25 ++ run))

/-- Strip a literal pattern from the front of `l`, comparing case-sensitively
(a regex literal without `re.IGNORECASE`); returns the remainder. -/
def stripPrefixCS : List Char → List Char → Option (List Char)
  | [], l => some l
  | _ :: _, [] => none
  | p :: ps, c :: cs => if c = p then stripPrefixCS ps cs else none

/-- Generic leftmost `re.search` scan for a pattern beginning with the
case-sensitive literal `pat`: at each occurrence of `pat` the continuation
`f` is tried on the remainder; on failure the scan resumes one character
further. -/
def scanCS (pat : List Char) (f : List Char → Option String) : List Char → Option String
  | [] => none
  | c :: cs =>
      match stripPrefixCS pat (c :: cs) with
      | some rest => (f rest).orElse fun _ => scanCS pat f cs
      | none => scanCS pat f cs

/-- Capture group `infrastructure/` plus a nonempty run of path characters,
anchored at the start of `l` and matched case-sensitively. -/
def tryInfraHereCS (l : List Char) : Option String :=
  (stripPrefixCS "infrastructure/".toList l).bind fun after =>
    let run := after.takeWhile isPathChar
    if run.isEmpty then none else some (String.mk (l.take 15 ++ run))

/-- Continuation of strategy 2 after an occurrence of `cd`: a lazy
single-line gap to `SourcesDirectory`, then `[^\n]*/?` and the capture; the
whole remainder is confined to the current line because neither `.`, `[^\n]`
nor the capture classes match a newline. -/
def tryCdSourcesHere (l : List Char) : Option String :=
  let line0 := l.takeWhile (fun c => c ≠ '\n')
  scanCI "sourcesdirectory".toList (fun after => lastMatchIn tryInfraTestAppsHere after) line0

/-- Strategy 2 of `determine_filepath`: case-insensitive search for `cd`,
a lazy same-line gap, `SourcesDirectory`, a greedy same-line gap with an
optional slash, and the captured `infrastructure/test-apps/` path. -/
def sourcesDirStrategy (build_logs : String) : Option String :=
  scanCI "cd".toList tryCdSourcesHere build_logs.toList

/-- The per-line search of strategy 3: `cd`, a greedy gap with an optional
slash, and the captured `infrastructure/` path (each `prev_line` is
newline-free, so the greedy gap spans the line). Unlike the regexes of
strategies 1 and 2, the source regex here carries no `re.IGNORECASE`, so
both the `cd` literal and the capture are matched case-sensitively. -/
def cdLineSearch (prev_line : String) : Option String :=
  scanCS "cd".toList (fun after => lastMatchIn tryInfraHereCS after) prev_line.toList

/-- Strategy 3 of `determine_filepath`: for each line containing
`terraform init` (case-insensitively), search the previous up-to-ten lines
for a `cd` into an `infrastructure/` path. -/
def terraformInitStrategy (build_logs : String) : Option String :=
  let lines := pySplitLines build_logs
  lines.enum.foldl
    (fun acc p =>
      match acc with
      | some r => some r
      | none =>
          if containsStr (pyLower p.2) "terraform init" then
            List.findSome? cdLineSearch ((lines.take p.1).drop (p.1 - 10))
          else none)
    none

/-- The context dictionary consumed by the fix generator: the raw build logs
and the `failure_info.pipeline_id` entry (`none` models an absent key). -/
structure FixContext where
  build_logs : String
  pipeline_id : Option String
deriving DecidableEq, Repr

/-- `determine_filepath(context, filename)`: the ordered filepath-resolution
fallback, ending in the fixed test-pipeline table and the hard-coded default. -/
def determine_filepath (context : FixContext) (filename : String) : String :=
  let build_logs := context.build_logs
  if build_logs = "" then "infrastructure/core/terraform/" ++ filename
  else
    match workingDirStrategy build_logs with
    | some rel_path => rel_path ++ "/" ++ filename
    | none =>
        match sourcesDirStrategy build_logs with
        | some rel_path => rel_path ++ "/" ++ filename
        | none =>
            match terraformInitStrategy build_logs with
            | some rel_path => rel_path ++ "/" ++ filename
            | none =>
                let pipeline_id := context.pipeline_id.getD ""
                if pipeline_id = "23" then
                  "infrastructure/test-apps/infra-only/terraform/scenarios/missing-variable/" ++ filename
                else if pipeline_id = "24" then
                  "infrastructure/test-apps/infra-only/terraform/scenarios/wrong-region/" ++ filename
                else if pipeline_id = "25" then
                  "infrastructure/test-apps/infra-only/terraform/scenarios/invalid-syntax/" ++ filename
                else "infrastructure/core/terraform/" ++ filename

/-- The `defaults` table of `generate_missing_variable_fix`. -/
def variable_defaults : List (String × String) :=
  [("azure_region", "eastus"), ("location", "eastus"),
   ("region", "eastus"), ("environment", "dev")]

/-- The `descriptions` table of `generate_missing_variable_fix`. -/
def variable_descriptions : List (String × String) :=
  [("azure_region", "Azure region for resource deployment"),
   ("location", "Azure location for resources"),
   ("region", "Deployment region"),
   ("environment", "Environment name")]

/-- `generate_missing_variable_fix(explanation, context)`: returns the
`{filepath: terraform_code}` mapping, or the empty mapping when no context,
no build logs or no extractable variable name. `none` for the context models
a falsy (missing/empty) context dictionary. -/
def generate_missing_variable_fix (explanation : String)
    (context : Option FixContext) : List (String × String) :=
  match context with
  | none => []
  | some ctx =>
      let build_logs := ctx.build_logs
      if build_logs = "" then []
      else
        match extract_variable_name build_logs with
        | none => []
        | some var_name =>
            let default_value := ((variable_defaults.lookup var_name).getD "CHANGE_ME")
            let description :=
              ((variable_descriptions.lookup var_name).getD ("Value for " ++ var_name))
            let terraform_code :=
              "variable \"" ++ var_name ++ "\" \x7b\n  description = \"" ++ description
              ++ "\"\n  type        = string\n  default     = \"" ++ default_value
              ++ "\"\n\x7d\n"
            let filepath := determine_filepath ctx "variables.tf"
            [(filepath, terraform_code)]

/-!
## github_operations.py and function_app.py
-/

/-- Python `str.title()` (ASCII model): an alphabetic character is uppercased
when the previous character is not alphabetic and lowercased otherwise. -/
def pyTitleAux : Bool → List Char → List Char
  | _, [] => []
  | prevAlpha, c :: cs =>
      let c2 := if c.isAlpha then (if prevAlpha then c.toLower else c.toUpper) else c
      c2 :: pyTitleAux c.isAlpha cs

/-- Python `str.title()` on a string. -/
def pyTitle (s : String) : String := String.mk (pyTitleAux false s.toList)

/-- Round to the nearest integer with ties to even: the rounding used by
Python `format(x, '.0f')` and `format(x, '.0%')`. The decimals reaching it
are exact, so the binary-float representation error of CPython is outside
the model. `f` is the floor and `r2` twice the remainder, compared against
the denominator to detect the half point. -/
def roundHalfEvenDec (d : Dec) : ℤ :=
  let p : ℤ := 10 ^ d.exp
  let f := Int.fdiv d.num p
  let r2 := 2 * (d.num - f * p)
  if r2 < p then f
  else if r2 > p then f + 1
  else if f % 2 = 0 then f else f + 1

/-- Python `format(x, '.0f')` on a CPython float: half-even rounding of the
(exact) finite values; the specials print as `nan`, `inf` and `-inf`. -/
def pyFormatNoDec (x : PyFloat) : String :=
  match x with
  | .finite d => toString (roundHalfEvenDec d)
  | .nan => "nan"
  | .inf => "inf"
  | .ninf => "-inf"

/-- Python `f"{q:.0%}"`. -/
def pyFormatPct (q : PyFloat) : String := pyFormatNoDec (q * 100) ++ "%"

/-- Python `str.strip('/')`. -/
def trimSlashes (s : String) : String :=
  String.mk (((s.toList.dropWhile (fun c => c = '/')).reverse.dropWhile (fun c => c = '/')).reverse)

/-- `GitHubOperations.get_repo_from_url(repo_url)`: extract `(owner, name)`
from an https or ssh GitHub URL. The Python `split(':')[1]` raises an
IndexError on a `git@` URL without a colon; that path is modelled as the
empty segment, which the truthiness check at the call site discards. -/
def get_repo_from_url (repo_url : String) : Option String × Option String :=
  if repo_url = "" then (none, none)
  else if containsStr repo_url "github.com" then
    let parts :=
      if startsWithStr repo_url "git@" then
        pySplit (pyReplace ((pySplit repo_url ":").getD 1 "") ".git" "") "/"
      else
        (pySplit (pyReplace (pyReplace (pyReplace repo_url "https://" "") "http://" "") ".git" "") "/").filter
          (fun p => p ≠ "" && p ≠ "github.com")
    match parts with
    | p0 :: p1 :: _ => (some p0, some p1)
    | _ => (none, none)
  else (none, none)

/-- The suggestion document committed by `create_fix_pr` when no file changes
are supplied. -/
def fix_suggestion_document (fix_description : String) (rca : RcaResult) : String :=
  "# Auto-Fix Suggestion\n\n**Category:** " ++ rca.category
  ++ "\n**Confidence:** " ++ pyFormatNoDec (rca.confidence * 100)
  ++ "%\n\n## Root Cause Analysis\n\n" ++ fix_description
  ++ "\n\n## Suggested Implementation\n\nPlease review the analysis above and implement the necessary changes.\n\n## Next Steps\n\n1. Review this analysis\n2. Implement the suggested fix\n3. Test the changes\n4. Update this PR with actual code changes\n5. Request review and merge\n\n---\n*Auto-generated by Agentic DevOps Healing*\n*This document will be replaced once actual code changes are committed*\n"

/-- Success result of `GitHubOperations.create_fix_pr`: the branch created,
the `(path, content)` commits made on it in order, the PR base and title and
the returned status. The free-text PR body is not re-modelled; the returned
status is the literal written in the source. -/
structure GhCreatePRResult where
  branch : String
  base : String
  commits : List (String × String)
  pr_title : String
  status : String
deriving DecidableEq, Repr

/-- `GitHubOperations.create_fix_pr` on its non-raising path. `rand_hex`
stands for `os.urandom(4).hex()` and `base_branch_found` for whether
`get_git_ref` finds the requested base branch (its 404 fallback switches to
`main`). With nonempty `file_changes` every entry is committed (updated or
created); otherwise the single fix-suggestion document is committed. -/
def create_fix_pr (source_branch : String) (fix_description : String)
    (file_changes : List (String × String)) (rca : RcaResult)
    (rand_hex : String) (base_branch_found : Bool) : GhCreatePRResult :=
  let source_branch :=
    if startsWithStr source_branch "refs/pull/" then "main"
    else if startsWithStr source_branch "refs/heads/" then pyReplace source_branch "refs/heads/" ""
    else source_branch
  let source_branch := if base_branch_found then source_branch else "main"
  let category := pyReplace (pyLower rca.category) "_" "-"
  let fix_branch_name := "auto-fix/" ++ category ++ "-" ++ rand_hex
  let commits :=
    if !file_changes.isEmpty then file_changes
    else [(".agentic-devops/fix-suggestion-" ++ category ++ ".md",
           fix_suggestion_document fix_description rca)]
  { branch := fix_branch_name,
    base := source_branch,
    commits := commits,
    pr_title := "Auto-fix: " ++ pyTitle (pyReplace rca.category "_" " "),
    status := "created" }

/-- The failure-context dictionary fields consumed by `execute_remediation`
and `format_work_item_description`; `none` models an absent key (for the
branch fields a present-but-`None` webhook value behaves identically at the
use sites modelled here, except on the Azure path, where `None` raises inside
the inner `try` and lands in the same work-item fallback). -/
structure FailureCtx where
  repo_url : Option String
  source_branch : Option String
  project_name : Option String
  failed_stage : Option String
  failed_job : Option String
  build_number : Option String
  build_id : Option String
  organization_url : Option String
deriving DecidableEq, Repr

/-- `format_work_item_description(rca_result, failure_context)`. -/
def format_work_item_description (rca : RcaResult) (fc : FailureCtx) : String :=
  "\n## Pipeline Failure Analysis\n\n**Build:** " ++ fc.build_number.getD "Unknown"
  ++ "  \n**Stage:** " ++ fc.failed_stage.getD "Unknown"
  ++ "  \n**Job:** " ++ fc.failed_job.getD "Unknown"
  ++ "\n\n## AI Analysis\n**Category:** " ++ rca.category
  ++ "  \n**Confidence:** " ++ pyFormatPct rca.confidence
  ++ "\n\n" ++ rca.explanation
  ++ "\n\n## Suggested Action\n" ++ rca.suggested_fix.getD "Manual investigation required"
  ++ "\n\n## Build Link\n" ++ fc.organization_url.getD "" ++ "/" ++ fc.project_name.getD ""
  ++ "/_build/results?buildId=" ++ fc.build_id.getD "" ++ "\n"

/-- The dictionary returned by the GitHub `create_fix_pr` collaborator as
read by the selector (`.get` with the defaults of the call site). -/
structure PRCallResult where
  pr_url : Option String
  pr_id : Option String
  status : Option String
deriving DecidableEq, Repr

/-- Outcome of the awaited PR-creation call: a returned dictionary or a
raised exception with text `msg`. -/
inductive PROutcome where
  | ok (result : PRCallResult)
  | raises (msg : String)
deriving DecidableEq, Repr

/-- Arguments of one `github_ops.create_fix_pr(...)` invocation. -/
structure GhPRCall where
  repo_owner : String
  repo_name : String
  source_branch : String
  fix_description : String
  file_changes : List (String × String)
deriving DecidableEq, Repr

/-- Arguments of one `git_ops.create_fix_pr(...)` (Azure Repos) invocation. -/
structure AzPRCall where
  project : String
  repo_name : String
  source_branch : String
  fix_description : String
  file_changes : List (String × String)
deriving DecidableEq, Repr

/-- Arguments of one `ado_client.create_work_item(...)` invocation. -/
structure WorkItemCall where
  project : String
  title : String
  description : String
deriving DecidableEq, Repr

/-- Trace of the collaborator invocations attempted by one selector run (a
PR-creation attempt is recorded with the arguments written at the call site
even when the awaited call raises). -/
structure RemTrace where
  gh_pr_calls : List GhPRCall
  az_pr_calls : List AzPRCall
  work_items : List WorkItemCall
deriving DecidableEq, Repr

/-- The action dictionary returned by `execute_remediation`; keys absent from
a given return site are `none`. -/
structure ActionResult where
  action : String
  details : String
  pr_url : Option String
  pr_number : Option String
  work_item_id : Option ℕ
  category : Option String
  note : Option String
deriving DecidableEq, Repr

/-- The GitHub-or-Azure routing of the selector: GitHub is the default, and
a nonempty repository URL decides by a case-insensitive substring test. -/
def selector_is_github (repo_url : String) : Bool :=
  if repo_url ≠ "" then containsStr (pyLower repo_url) "github.com" else true

/-- `execute_remediation(rca_result, failure_context)`: the Remediation
Selector. `pr` models the outcome of whichever PR-creation collaborator the
chosen branch awaits, and `work_item_id` the id returned by
`create_work_item` (modelled as non-raising; a raise there would surface as
the outer `ERROR` mapping, which no claim exercises). -/
def execute_remediation (rca : RcaResult) (fc : FailureCtx)
    (pr : PROutcome) (work_item_id : ℕ) : ActionResult × RemTrace :=
  let confidence := rca.confidence
  let can_autofix := rca.can_autofix
  let category := rca.category
  if 0.65 ≤ confidence ∧ can_autofix then
    let repo_url := fc.repo_url.getD ""
    let is_github := selector_is_github repo_url
    if is_github then
      let extracted : Option String × Option String :=
        if repo_url ≠ "" then get_repo_from_url repo_url else (none, none)
      let repo_owner :=
        match extracted with
        | (some o, some r) => if o ≠ "" && r ≠ "" then o else "opscart"
        | _ => "opscart"
      let repo_name :=
        match extracted with
        | (some o, some r) => if o ≠ "" && r ≠ "" then r else "agentic-devops-healing"
        | _ => "agentic-devops-healing"
      let sb0 := fc.source_branch.getD ""
      let sb1 := if sb0 ≠ "" && startsWithStr sb0 "refs/heads/" then pyReplace sb0 "refs/heads/" "" else sb0
      let source_branch := if sb1 = "" then "main" else sb1
      let ghCall : GhPRCall :=
        { repo_owner := repo_owner, repo_name := repo_name, source_branch := source_branch,
          fix_description := rca.explanation, file_changes := [] }
      match pr with
      | .ok res =>
          let pr_url := res.pr_url.getD "PR created"
          let pr_number := res.pr_id.getD "N/A"
          let pr_status := res.status.getD "created"
          if pr_status = "duplicate_prevented" then
            ({ action := "EXISTING_PR_FOUND",
               details := "Found existing GitHub PR #" ++ pr_number,
               pr_url := some pr_url, pr_number := some pr_number,
               work_item_id := none, category := none, note := none },
             { gh_pr_calls := [ghCall], az_pr_calls := [], work_items := [] })
          else
            ({ action := "AUTO_FIX_PR_CREATED",
               details := "Created GitHub PR #" ++ pr_number,
               pr_url := some pr_url, pr_number := some pr_number,
               work_item_id := none, category := none, note := none },
             { gh_pr_calls := [ghCall], az_pr_calls := [], work_items := [] })
      | .raises msg =>
          let wi : WorkItemCall :=
            { project := fc.project_name.getD "AI-DevOps-POC",
              title := "ü§ñ Auto-fix Suggested: " ++ pyTitle (pyReplace category "_" " "),
              description := "PR creation failed: " ++ msg ++ "\n\n"
                ++ format_work_item_description rca fc }
          ({ action := "AUTO_FIX_SUGGESTED",
             details := "Created work item: " ++ toString work_item_id
               ++ " (PR failed: " ++ msg ++ ")",
             pr_url := none, pr_number := none,
             work_item_id := some work_item_id, category := none, note := none },
           { gh_pr_calls := [ghCall], az_pr_calls := [], work_items := [wi] })
    else
      let repo_name :=
        if repo_url ≠ "" && containsStr repo_url "/_git/" then
          trimSlashes (((pySplit ((pySplit repo_url "/_git/").getLast?.getD "") "?").getD 0 ""))
        else "agentic-devops-healing"
      let sb0 := fc.source_branch.getD "refs/heads/main"
      let source_branch := if !(startsWithStr sb0 "refs/heads/") then "refs/heads/" ++ sb0 else sb0
      let azCall : AzPRCall :=
        { project := fc.project_name.getD "AI-DevOps-POC", repo_name := repo_name,
          source_branch := source_branch, fix_description := rca.explanation,
          file_changes := [] }
      match pr with
      | .ok res =>
          ({ action := "AUTO_FIX_PR_CREATED", details := "Created Azure PR",
             pr_url := res.pr_url, pr_number := none,
             work_item_id := none, category := none, note := none },
           { gh_pr_calls := [], az_pr_calls := [azCall], work_items := [] })
      | .raises _ =>
          let wi : WorkItemCall :=
            { project := fc.project_name.getD "AI-DevOps-POC",
              title := "Pipeline Failure: " ++ fc.failed_stage.getD "Unknown",
              description := format_work_item_description rca fc }
          ({ action := "WORK_ITEM_CREATED",
             details := "Created work item: " ++ toString work_item_id ++ " (PR failed)",
             pr_url := none, pr_number := none,
             work_item_id := some work_item_id, category := none, note := none },
           { gh_pr_calls := [], az_pr_calls := [azCall], work_items := [wi] })
  else if confidence < 0.5 then
    ({ action := "SKIPPED",
       details := "Analysis confidence too low ("
         ++ pyFormatNoDec (confidence * 100)
         ++ "%) - manual investigation required",
       pr_url := none, pr_number := none, work_item_id := none,
       category := some category,
       note := some "No work item created due to low confidence" },
     { gh_pr_calls := [], az_pr_calls := [], work_items := [] })
  else
    let wi : WorkItemCall :=
      { project := fc.project_name.getD "AI-DevOps-POC",
        title := "Pipeline Failure: " ++ fc.failed_stage.getD "Unknown",
        description := format_work_item_description rca fc }
    ({ action := "WORK_ITEM_CREATED",
       details := "Created work item: " ++ toString work_item_id,
       pr_url := none, pr_number := none,
       work_item_id := some work_item_id, category := none, note := none },
     { gh_pr_calls := [], az_pr_calls := [], work_items := [wi] })

/-!
## Theorems about the specification claims
-/

theorem parseLine_category_eq (st : ParseState) (line : String)
    (h : startsWithStr line "CATEGORY:" = true →
      containsStr (pyLower (pyStrip (pyReplace line "CATEGORY:" ""))) "configuration" = false ∧
      containsStr (pyLower (pyStrip (pyReplace line "CATEGORY:" ""))) "syntax" = false) :
    (parseLine st line).category = st.category := by
  unfold parseLine
  split_ifs with h1 h2 h3 <;> simp_all

theorem foldl_parseLine_category_eq (ls : List String) (st : ParseState)
    (h : ∀ line ∈ ls, startsWithStr line "CATEGORY:" = true →
      containsStr (pyLower (pyStrip (pyReplace line "CATEGORY:" ""))) "configuration" = false ∧
      containsStr (pyLower (pyStrip (pyReplace line "CATEGORY:" ""))) "syntax" = false) :
    (ls.foldl parseLine st).category = st.category := by
  induction ls generalizing st with
  | nil => rfl
  | cons l ls ih =>
      have hl := h l (List.mem_cons_self l ls)
      have htail : ∀ line ∈ ls, startsWithStr line "CATEGORY:" = true →
          containsStr (pyLower (pyStrip (pyReplace line "CATEGORY:" ""))) "configuration" = false ∧
          containsStr (pyLower (pyStrip (pyReplace line "CATEGORY:" ""))) "syntax" = false :=
        fun line hm => h line (List.mem_cons_of_mem _ hm)
      calc (List.foldl parseLine st (l :: ls)).category
          = (List.foldl parseLine (parseLine st l) ls).category := rfl
        _ = (parseLine st l).category := ih _ htail
        _ = st.category := parseLine_category_eq st l hl

/-- C10: the completion-response parser maps only CATEGORY labels containing
"configuration" or "syntax"; every response whose CATEGORY lines carry
neither keyword (such as the prompt labels Authentication Error, State Error
and Provider Error) leaves the parsed category at the default
`TERRAFORM_ERROR`, so three of the five prompt labels are never
distinguished. -/
theorem parser_maps_only_two_category_labels (response : String)
    (h : ∀ line ∈ pySplitLines response, startsWithStr line "CATEGORY:" = true →
      containsStr (pyLower (pyStrip (pyReplace line "CATEGORY:" ""))) "configuration" = false ∧
      containsStr (pyLower (pyStrip (pyReplace line "CATEGORY:" ""))) "syntax" = false) :
    (parseAIResponse response).category = "TERRAFORM_ERROR" :=
  foldl_parseLine_category_eq _ _ h

theorem parser_maps_only_two_category_labels_witness :
    (parseAIResponse "CATEGORY: Authentication Error").category = "TERRAFORM_ERROR" ∧
    (parseAIResponse "CATEGORY: State Error").category = "TERRAFORM_ERROR" ∧
    (parseAIResponse "CATEGORY: Provider Error").category = "TERRAFORM_ERROR" :=
  ⟨parser_maps_only_two_category_labels _ (by decide),
   parser_maps_only_two_category_labels _ (by decide),
   parser_maps_only_two_category_labels _ (by decide)⟩

/-- C1 (counterexample): the explanation `syntax error: invalid region`
matches the manual-review pattern `syntax error`, yet `can_be_autofixed`
returns true for it, because the auto-fixable pattern loop (here matching
`invalid region`) runs before the manual-review loop. -/
theorem autofix_policy_manual_not_checked_first :
    reSearch (RePat.lit "syntax error") (pyLower "syntax error: invalid region") = true ∧
    can_be_autofixed "syntax error: invalid region" "TERRAFORM_ERROR" = true := by
  constructor <;> decide

/-- C1 (amended): the Autofix Policy checks the safe patterns first; the
manual-review patterns force `can_be_autofixed` to false, for every category,
only when no safe pattern also matches the explanation. -/
theorem autofix_policy_manual_rejects_when_no_safe_match (e c : String)
    (hman : manual_review_patterns.any (fun p => reSearch p (pyLower e)) = true)
    (hsafe : auto_fixable_patterns.any (fun p => reSearch p (pyLower e)) = false) :
    can_be_autofixed e c = false := by
  simp only [can_be_autofixed, hsafe, hman]
  simp

theorem autofix_policy_manual_rejects_when_no_safe_match_witness :
    manual_review_patterns.any (fun p => reSearch p (pyLower "unexpected token")) = true ∧
    auto_fixable_patterns.any (fun p => reSearch p (pyLower "unexpected token")) = false ∧
    can_be_autofixed "unexpected token" "TERRAFORM_MISSING_VARIABLE" = false :=
  ⟨by decide, by decide,
   autofix_policy_manual_rejects_when_no_safe_match "unexpected token"
     "TERRAFORM_MISSING_VARIABLE" (by decide) (by decide)⟩

/-- Decidable form of: every `CONFIDENCE:` line of the completion response
parses to a nonnegative value (an unparseable line gives the nonnegative
`0.7` default; a NaN, being nonordered, also violates this). Vacuously true
for a raising completion. -/
def confLinesNonneg (completion : Except String String) : Bool :=
  match completion with
  | .error _ => true
  | .ok response =>
      (pySplitLines response).all fun line =>
        !(startsWithStr line "CONFIDENCE:") || decide (0 ≤ pyFloatConfLine line)

/-- Decidable form of: no `CONFIDENCE:` line of the completion response
parses to NaN (an unparseable line gives the finite `0.7` default, so only a
literal CPython `float()` reads as NaN — `nan` under an optional sign, in
any case — violates this). Vacuously true for a raising completion. -/
def confLinesNoNan (completion : Except String String) : Bool :=
  match completion with
  | .error _ => true
  | .ok response =>
      (pySplitLines response).all fun line =>
        !(startsWithStr line "CONFIDENCE:") || decide (pyFloatConfLine line ≠ PyFloat.nan)

theorem parseLine_conf_nonneg (st : ParseState) (line : String)
    (hst : 0 ≤ st.confidence)
    (h : startsWithStr line "CONFIDENCE:" = true → 0 ≤ pyFloatConfLine line) :
    0 ≤ (parseLine st line).confidence := by
  unfold parseLine
  dsimp only
  split_ifs with h1 h2 h3 <;> simp_all

theorem foldl_parseLine_conf_nonneg (ls : List String) (st : ParseState)
    (hst : 0 ≤ st.confidence)
    (h : ∀ line ∈ ls, startsWithStr line "CONFIDENCE:" = true → 0 ≤ pyFloatConfLine line) :
    0 ≤ (ls.foldl parseLine st).confidence := by
  induction ls generalizing st with
  | nil => exact hst
  | cons l ls ih =>
      exact ih (parseLine st l)
        (parseLine_conf_nonneg st l hst (h l (List.mem_cons_self l ls)))
        (fun line hm => h line (List.mem_cons_of_mem _ hm))

theorem parseLine_conf_ne_nan (st : ParseState) (line : String)
    (hst : st.confidence ≠ PyFloat.nan)
    (h : startsWithStr line "CONFIDENCE:" = true → pyFloatConfLine line ≠ PyFloat.nan) :
    (parseLine st line).confidence ≠ PyFloat.nan := by
  unfold parseLine
  dsimp only
  split_ifs with h1 h2 h3 <;> simp_all

theorem foldl_parseLine_conf_ne_nan (ls : List String) (st : ParseState)
    (hst : st.confidence ≠ PyFloat.nan)
    (h : ∀ line ∈ ls, startsWithStr line "CONFIDENCE:" = true →
      pyFloatConfLine line ≠ PyFloat.nan) :
    (ls.foldl parseLine st).confidence ≠ PyFloat.nan := by
  induction ls generalizing st with
  | nil => exact hst
  | cons l ls ih =>
      exact ih (parseLine st l)
        (parseLine_conf_ne_nan st l hst (h l (List.mem_cons_self l ls)))
        (fun line hm => h line (List.mem_cons_of_mem _ hm))

theorem analyze_with_ai_conf_le (completion : Except String String)
    (h : confLinesNoNan completion = true) :
    (analyze_with_ai completion).confidence ≤ 0.95 := by
  cases completion with
  | error e => show (0.3 : PyFloat) ≤ 0.95; decide
  | ok response =>
      have hbase : (parseAIResponse response).confidence ≠ PyFloat.nan := by
        apply foldl_parseLine_conf_ne_nan
        · show (0.7 : PyFloat) ≠ PyFloat.nan; decide
        · intro line hm hsw
          simp only [confLinesNoNan, List.all_eq_true] at h
          have h2 := h line hm
          rw [hsw] at h2
          simpa using h2
      show (analyze_with_ai (.ok response)).confidence ≤ 0.95
      unfold analyze_with_ai
      dsimp only
      split_ifs <;>
        refine PyFloat.min_le_right_of_ne_nan ?_ <;>
        first
          | exact hbase
          | exact PyFloat.max_ne_nan hbase (by decide)
          | exact PyFloat.max_ne_nan (PyFloat.max_ne_nan hbase (by decide)) (by decide)
          | exact PyFloat.max_ne_nan
              (PyFloat.max_ne_nan (PyFloat.max_ne_nan hbase (by decide)) (by decide)) (by decide)

theorem analyze_with_ai_conf_nonneg (completion : Except String String)
    (h : confLinesNonneg completion = true) :
    0 ≤ (analyze_with_ai completion).confidence := by
  cases completion with
  | error e => show (0 : PyFloat) ≤ 0.3; decide
  | ok response =>
      have hbase : 0 ≤ (parseAIResponse response).confidence := by
        apply foldl_parseLine_conf_nonneg
        · show (0 : PyFloat) ≤ 0.7; decide
        · intro line hm hsw
          simp only [confLinesNonneg, List.all_eq_true] at h
          have h2 := h line hm
          rw [hsw] at h2
          simpa using h2
      show 0 ≤ (analyze_with_ai (.ok response)).confidence
      unfold analyze_with_ai
      dsimp only
      split_ifs <;>
        refine PyFloat.le_min_of ?_ (by decide) <;>
        first
          | exact hbase
          | exact PyFloat.le_max_of hbase (by decide)
          | exact PyFloat.le_max_of (PyFloat.le_max_of hbase (by decide)) (by decide)
          | exact PyFloat.le_max_of
              (PyFloat.le_max_of (PyFloat.le_max_of hbase (by decide)) (by decide)) (by decide)

theorem detect_error_pattern_bounds (logs p : String) (c : PyFloat)
    (h : detect_error_pattern logs = some (p, c)) :
    (0 ≤ c ∧ 0.90 ≤ c) ∧ c ≤ 0.95 := by
  unfold detect_error_pattern at h
  split_ifs at h <;> simp only [Option.some.injEq, Prod.mk.injEq] at h
  · obtain ⟨-, hc⟩ := h; subst hc; exact ⟨⟨by decide, by decide⟩, by decide⟩
  · obtain ⟨-, hc⟩ := h; subst hc; exact ⟨⟨by decide, by decide⟩, by decide⟩
  · obtain ⟨-, hc⟩ := h; subst hc; exact ⟨⟨by decide, by decide⟩, by decide⟩

set_option maxHeartbeats 1600000 in
/-- C2 (amended): the Category Classifier caps confidence at `0.95` whenever
no `CONFIDENCE:` line of the response parses to NaN — the only cap in the
source is `min(confidence, 0.95)`, and CPython's `min` keeps a NaN first
argument, so a `CONFIDENCE: nan` line instead drives the final confidence to
NaN; the confidence is nonnegative whenever every `CONFIDENCE:` line parses
to a nonnegative value, but a parseable negative value is propagated below
`0.0` — there is no lower clamp. -/
theorem classifier_confidence_clamped (build_logs : String)
    (completion : Except String String) (r : RcaResult)
    (hr : analyze_terraform_failure build_logs completion = some r) :
    (confLinesNoNan completion = true → r.confidence ≤ 0.95) ∧
    (confLinesNonneg completion = true → 0 ≤ r.confidence) := by
  unfold analyze_terraform_failure at hr
  cases hT : is_terraform_failure build_logs with
  | false => rw [hT] at hr; simp at hr
  | true =>
      rw [hT] at hr
      dsimp only at hr
      rcases hdet : detect_error_pattern build_logs with - | ⟨p, c⟩ <;> rw [hdet] at hr <;>
        dsimp only at hr
      · split_ifs at hr <;>
          (have hX := Option.some.inj hr; subst hX) <;>
          exact ⟨fun hnl => analyze_with_ai_conf_le completion hnl,
                 fun hcl => analyze_with_ai_conf_nonneg completion hcl⟩
      · obtain ⟨⟨hc0, hc90⟩, hc95⟩ := detect_error_pattern_bounds _ _ _ hdet
        split_ifs at hr <;>
          (have hX := Option.some.inj hr; subst hX) <;>
          constructor <;>
          first
            | exact fun hnl => analyze_with_ai_conf_le completion hnl
            | exact fun hnl =>
                PyFloat.max_le_of (analyze_with_ai_conf_le completion hnl) hc95
            | exact fun hcl => analyze_with_ai_conf_nonneg completion hcl
            | exact fun hcl =>
                PyFloat.le_max_of (analyze_with_ai_conf_nonneg completion hcl) hc0

/-- C2 (counterexample): the source caps only with `min(confidence, 0.95)`
and never clamps below: a `CONFIDENCE: -0.5` line drives the final
classification confidence to `-0.5 < 0`, and a `CONFIDENCE: nan` line — a
literal CPython `float()` accepts — drives it to NaN, for which even the
upper bound fails, since `min(nan, 0.95)` is NaN and NaN is below nothing. -/
theorem classifier_confidence_no_lower_clamp :
    (analyze_terraform_failure "terraform apply" (Except.ok "CONFIDENCE: -0.5") =
      some { category := "TERRAFORM_ERROR", confidence := -0.5,
             explanation := "CONFIDENCE: -0.5", can_autofix := false,
             suggested_fix := none } ∧
     ((-0.5 : PyFloat) < 0)) ∧
    (analyze_terraform_failure "terraform apply" (Except.ok "CONFIDENCE: nan") =
      some { category := "TERRAFORM_ERROR", confidence := PyFloat.nan,
             explanation := "CONFIDENCE: nan", can_autofix := false,
             suggested_fix := none } ∧
     ¬ (PyFloat.nan ≤ 0.95)) := by
  exact ⟨⟨by decide, by decide⟩, ⟨by decide, by decide⟩⟩

theorem classifier_confidence_clamped_witness :
    (analyze_terraform_failure "terraform apply" (Except.ok "CONFIDENCE: 0.8")).isSome = true ∧
    confLinesNoNan (Except.ok "CONFIDENCE: 0.8") = true ∧
    confLinesNonneg (Except.ok "CONFIDENCE: 0.8") = true ∧
    ∃ r, analyze_terraform_failure "terraform apply" (Except.ok "CONFIDENCE: 0.8") = some r ∧
      r.confidence ≤ 0.95 ∧ 0 ≤ r.confidence := by
  refine ⟨by decide, by decide, by decide, ?_⟩
  cases hr : analyze_terraform_failure "terraform apply" (Except.ok "CONFIDENCE: 0.8") with
  | none => exact absurd hr (by decide)
  | some r =>
      obtain ⟨h1, h2⟩ := classifier_confidence_clamped _ _ _ hr
      exact ⟨r, rfl, h1 (by decide), h2 (by decide)⟩

/-- C5: the pattern-hint override: whenever the detector fires on the log
with confidence at least 0.90 and the completion-derived category disagrees,
the final classification carries the detector's category and the maximum of
the two confidences. -/
theorem pattern_hint_override (build_logs : String) (completion : Except String String)
    (p : String) (c : PyFloat)
    (hT : is_terraform_failure build_logs = true)
    (hdet : detect_error_pattern build_logs = some (p, c))
    (hc : c ≥ 0.90)
    (hne : (analyze_with_ai completion).category ≠ p) :
    ∃ r, analyze_terraform_failure build_logs completion = some r ∧
      r.category = p ∧
      r.confidence = max (analyze_with_ai completion).confidence c := by
  simp only [analyze_terraform_failure, hT, Bool.not_true, Bool.false_eq_true, if_false, hdet]
  rw [if_pos hc, if_pos hne]
  split_ifs <;> exact ⟨_, rfl, rfl, rfl⟩

theorem pattern_hint_override_witness :
    ∃ r, analyze_terraform_failure
        "terraform Error: Reference to undeclared input variable \"x\""
        (Except.ok "") = some r ∧
      r.category = "TERRAFORM_MISSING_VARIABLE" ∧
      r.confidence = max (analyze_with_ai (Except.ok "")).confidence 0.95 :=
  pattern_hint_override _ _ _ _ (by decide) (by decide) (by decide) (by decide)

/-- C4 (counterexample): with a raising completion but a log on which the
high-confidence detector fires, the classifier's final result is not the
`UNKNOWN_ERROR` / `0.3` / no-autofix fallback the claim demands for every
log: the pattern override replaces category and confidence and the final
autofix re-derivation then enables autofix. -/
theorem classifier_error_fallback_overridden :
    analyze_terraform_failure
        "terraform Error: Reference to undeclared input variable \"x\""
        (Except.error "boom") =
      some { category := "TERRAFORM_MISSING_VARIABLE", confidence := 0.95,
             explanation := "Error analyzing with AI: " ++ "boom", can_autofix := true,
             suggested_fix := none } := by
  decide

/-- C4 (amended): when the completion call raises, the classifier never
propagates the exception and surfaces the error text in the explanation; the
full `UNKNOWN_ERROR` / confidence `0.3` / no-autofix fallback is returned
whenever no detector pattern fired on the log and the error text triggers no
autofix keyword override (with a high-confidence pattern the override
replaces category and confidence and may re-enable autofix). -/
theorem classifier_error_fallback (build_logs e : String)
    (hT : is_terraform_failure build_logs = true)
    (hdet : detect_error_pattern build_logs = none)
    (hm : (containsStr (pyLower ("Error analyzing with AI: " ++ e)) "missing" &&
           containsStr (pyLower ("Error analyzing with AI: " ++ e)) "variable") = false)
    (hw : containsStr (pyLower ("Error analyzing with AI: " ++ e)) "wrong region" = false)
    (hi : containsStr (pyLower ("Error analyzing with AI: " ++ e)) "invalid region" = false) :
    analyze_terraform_failure build_logs (Except.error e) =
      some { category := "UNKNOWN_ERROR", confidence := 0.3,
             explanation := "Error analyzing with AI: " ++ e,
             can_autofix := false, suggested_fix := none } := by
  simp only [analyze_terraform_failure, hT, Bool.not_true, Bool.false_eq_true, if_false, hdet,
             analyze_with_ai]
  split_ifs with h1 h2 <;> simp_all [AUTO_FIXABLE]

theorem classifier_error_fallback_witness :
    analyze_terraform_failure "terraform apply" (Except.error "boom") =
      some { category := "UNKNOWN_ERROR", confidence := 0.3,
             explanation := "Error analyzing with AI: " ++ "boom",
             can_autofix := false, suggested_fix := none } :=
  classifier_error_fallback "terraform apply" "boom"
    (by decide) (by decide) (by decide) (by decide) (by decide)

/-- Sample classification result used by the concrete selector runs of the
witnesses. -/
def sampleRca (confidence : PyFloat) (can_autofix : Bool) : RcaResult :=
  { category := "TERRAFORM_MISSING_VARIABLE", confidence := confidence,
    explanation := "Missing variable azure_region", can_autofix := can_autofix,
    suggested_fix := none }

/-- Sample failure context (no repository URL, so the selector takes its
GitHub default path) used by the concrete selector runs of the witnesses. -/
def sampleCtx : FailureCtx :=
  { repo_url := none, source_branch := some "refs/heads/main",
    project_name := some "AI-DevOps-POC", failed_stage := some "Deploy",
    failed_job := none, build_number := some "77", build_id := some "123",
    organization_url := some "https://dev.azure.com/org" }

/-- C3: the selector's decision table: at confidence at least 0.65 with
can-autofix true (the threshold value itself included) it attempts PR
creation; below 0.5 it returns SKIPPED and creates no work item and no PR;
in the remaining band (or with can-autofix false and confidence at least
0.5) it returns WORK_ITEM_CREATED and attempts no PR. -/
theorem remediation_decision_table (rca : RcaResult) (fc : FailureCtx)
    (pr : PROutcome) (wid : ℕ) :
    (0.65 ≤ rca.confidence ∧ rca.can_autofix = true →
      (execute_remediation rca fc pr wid).2.gh_pr_calls.length +
        (execute_remediation rca fc pr wid).2.az_pr_calls.length = 1) ∧
    (rca.confidence < 0.5 →
      (execute_remediation rca fc pr wid).1.action = "SKIPPED" ∧
      (execute_remediation rca fc pr wid).2.work_items = [] ∧
      (execute_remediation rca fc pr wid).2.gh_pr_calls = [] ∧
      (execute_remediation rca fc pr wid).2.az_pr_calls = []) ∧
    (0.5 ≤ rca.confidence ∧ ¬(0.65 ≤ rca.confidence ∧ rca.can_autofix = true) →
      (execute_remediation rca fc pr wid).1.action = "WORK_ITEM_CREATED" ∧
      (execute_remediation rca fc pr wid).2.gh_pr_calls = [] ∧
      (execute_remediation rca fc pr wid).2.az_pr_calls = []) := by
  refine ⟨?_, ?_, ?_⟩
  · rintro ⟨h1, h2⟩
    unfold execute_remediation
    dsimp only
    rw [if_pos ⟨h1, h2⟩]
    cases pr <;> dsimp only <;> split_ifs <;> rfl
  · intro hlow
    have hn : ¬(0.65 ≤ rca.confidence ∧ rca.can_autofix = true) := by
      rintro ⟨h1, -⟩
      exact PyFloat.not_le_of_lt_le (b := ⟨5, 1⟩) (c := ⟨65, 2⟩) (by decide) hlow h1
    unfold execute_remediation
    rw [if_neg hn, if_pos hlow]
    exact ⟨rfl, rfl, rfl, rfl⟩
  · rintro ⟨hmid, hn⟩
    have hn2 : ¬(rca.confidence < 0.5) := PyFloat.not_lt_of_le hmid
    unfold execute_remediation
    rw [if_neg hn, if_neg hn2]
    exact ⟨rfl, rfl, rfl⟩

theorem remediation_decision_table_witness :
    ((execute_remediation (sampleRca 0.65 true) sampleCtx
          (PROutcome.ok { pr_url := some "u", pr_id := some "7", status := some "created" }) 3).2.gh_pr_calls.length +
        (execute_remediation (sampleRca 0.65 true) sampleCtx
          (PROutcome.ok { pr_url := some "u", pr_id := some "7", status := some "created" }) 3).2.az_pr_calls.length = 1) ∧
    ((execute_remediation (sampleRca 0.64 true) sampleCtx
        (PROutcome.ok { pr_url := some "u", pr_id := some "7", status := some "created" }) 3).1.action
      = "WORK_ITEM_CREATED") ∧
    ((execute_remediation (sampleRca 0.3 false) sampleCtx
        (PROutcome.ok { pr_url := some "u", pr_id := some "7", status := some "created" }) 3).1.action
      = "SKIPPED") :=
  ⟨(remediation_decision_table (sampleRca 0.65 true) sampleCtx _ 3).1 ⟨by decide, rfl⟩,
   ((remediation_decision_table (sampleRca 0.64 true) sampleCtx _ 3).2.2 ⟨by decide, by decide⟩).1,
   ((remediation_decision_table (sampleRca 0.3 false) sampleCtx _ 3).2.1 (by decide)).1⟩

/-- C6 (counterexample): on the default GitHub path, a raising PR creation
falls back to a work item but the returned action tag is
`AUTO_FIX_SUGGESTED`, not the `WORK_ITEM_CREATED` the claim demands. -/
theorem pr_failure_fallback_action_tag :
    (execute_remediation (sampleRca 0.95 true) sampleCtx (PROutcome.raises "boom") 3).1.action
      = "AUTO_FIX_SUGGESTED" ∧
    ("AUTO_FIX_SUGGESTED" : String) ≠ "WORK_ITEM_CREATED" := by
  constructor
  · decide
  · decide

/-- C6 (amended): when the chosen PR creation raises, the selector never
surfaces the exception and always falls back to creating a work item; on the
GitHub path the work item's description embeds the failure reason but the
action tag is `AUTO_FIX_SUGGESTED`, while on the Azure path the action tag
is `WORK_ITEM_CREATED` but the description is the standard work-item body
without the exception text (the details note only that the PR failed). -/
theorem pr_failure_fallback (rca : RcaResult) (fc : FailureCtx) (msg : String) (wid : ℕ)
    (h1 : 0.65 ≤ rca.confidence) (h2 : rca.can_autofix = true) :
    (selector_is_github (fc.repo_url.getD "") = true →
      (execute_remediation rca fc (PROutcome.raises msg) wid).1.action = "AUTO_FIX_SUGGESTED" ∧
      ∃ wi ∈ (execute_remediation rca fc (PROutcome.raises msg) wid).2.work_items,
        wi.description =
          "PR creation failed: " ++ msg ++ "\n\n" ++ format_work_item_description rca fc) ∧
    (selector_is_github (fc.repo_url.getD "") = false →
      (execute_remediation rca fc (PROutcome.raises msg) wid).1.action = "WORK_ITEM_CREATED" ∧
      ∃ wi ∈ (execute_remediation rca fc (PROutcome.raises msg) wid).2.work_items,
        wi.description = format_work_item_description rca fc) := by
  constructor
  · intro hg
    unfold execute_remediation
    dsimp only
    rw [if_pos ⟨h1, h2⟩, hg, if_pos rfl]
    exact ⟨rfl, _, List.mem_singleton_self _, rfl⟩
  · intro hg
    unfold execute_remediation
    dsimp only
    rw [if_pos ⟨h1, h2⟩, hg, if_neg (by decide)]
    exact ⟨rfl, _, List.mem_singleton_self _, rfl⟩

theorem pr_failure_fallback_witness :
    (execute_remediation (sampleRca 0.95 true) sampleCtx (PROutcome.raises "x") 3).1.action
      = "AUTO_FIX_SUGGESTED" :=
  ((pr_failure_fallback (sampleRca 0.95 true) sampleCtx "x" 3 (by decide) rfl).1 (by decide)).1

/-- C8 (counterexample): a PR-creation result whose status is the contract's
`duplicate` literal is not recognized: the selector reports
`AUTO_FIX_PR_CREATED`, because the only status it compares against is
`duplicate_prevented`. -/
theorem duplicate_status_not_recognized :
    (execute_remediation (sampleRca 0.95 true) sampleCtx
        (PROutcome.ok { pr_url := some "u", pr_id := some "7", status := some "duplicate" })
        3).1.action = "AUTO_FIX_PR_CREATED" ∧
    ("AUTO_FIX_PR_CREATED" : String) ≠ "EXISTING_PR_FOUND" := by
  constructor
  · decide
  · decide

/-- C8 (amended): the duplicate signal the selector recognizes is the
literal `duplicate_prevented`: on the GitHub PR path a returned status equal
to it yields `EXISTING_PR_FOUND` (and not `AUTO_FIX_PR_CREATED`), and any
other returned status yields `AUTO_FIX_PR_CREATED`. -/
theorem duplicate_prevented_yields_existing_pr (rca : RcaResult) (fc : FailureCtx)
    (res : PRCallResult) (wid : ℕ)
    (h1 : 0.65 ≤ rca.confidence) (h2 : rca.can_autofix = true)
    (hg : selector_is_github (fc.repo_url.getD "") = true) :
    (res.status.getD "created" = "duplicate_prevented" →
      (execute_remediation rca fc (PROutcome.ok res) wid).1.action = "EXISTING_PR_FOUND" ∧
      (execute_remediation rca fc (PROutcome.ok res) wid).1.action ≠ "AUTO_FIX_PR_CREATED") ∧
    (res.status.getD "created" ≠ "duplicate_prevented" →
      (execute_remediation rca fc (PROutcome.ok res) wid).1.action = "AUTO_FIX_PR_CREATED") := by
  constructor
  · intro hs
    unfold execute_remediation
    dsimp only
    rw [if_pos ⟨h1, h2⟩, hg, if_pos rfl]
    rw [if_pos hs]
    exact ⟨rfl, show ("EXISTING_PR_FOUND" : String) ≠ "AUTO_FIX_PR_CREATED" by decide⟩
  · intro hs
    unfold execute_remediation
    dsimp only
    rw [if_pos ⟨h1, h2⟩, hg, if_pos rfl]
    rw [if_neg hs]

theorem duplicate_prevented_yields_existing_pr_witness :
    (execute_remediation (sampleRca 0.95 true) sampleCtx
        (PROutcome.ok { pr_url := some "u", pr_id := some "7",
                        status := some "duplicate_prevented" }) 3).1.action
      = "EXISTING_PR_FOUND" :=
  ((duplicate_prevented_yields_existing_pr (sampleRca 0.95 true) sampleCtx
      { pr_url := some "u", pr_id := some "7", status := some "duplicate_prevented" } 3
      (by decide) rfl (by decide)).1 (by decide)).1

/-- C9: every PR-creation invocation made by the selector passes an empty
file-changes mapping (the generated fix payload is never forwarded), and
`create_fix_pr` given empty file changes commits exactly the one generated
fix-suggestion document, never a file patch. -/
theorem pr_creation_gets_empty_file_changes :
    (∀ (rca : RcaResult) (fc : FailureCtx) (pr : PROutcome) (wid : ℕ),
      (∀ call ∈ (execute_remediation rca fc pr wid).2.gh_pr_calls, call.file_changes = []) ∧
      (∀ call ∈ (execute_remediation rca fc pr wid).2.az_pr_calls, call.file_changes = [])) ∧
    (∀ (sb fd : String) (rca : RcaResult) (rand_hex : String) (base_found : Bool),
      (create_fix_pr sb fd [] rca rand_hex base_found).commits =
        [(".agentic-devops/fix-suggestion-" ++ pyReplace (pyLower rca.category) "_" "-" ++ ".md",
          fix_suggestion_document fd rca)]) := by
  constructor
  · intro rca fc pr wid
    cases pr <;>
      · unfold execute_remediation
        dsimp only
        constructor <;> intro call hc <;> split_ifs at hc <;> simp_all
  · intro sb fd rca rand_hex base_found
    rfl

theorem pr_creation_gets_empty_file_changes_witness :
    ({ repo_owner := "opscart", repo_name := "agentic-devops-healing",
       source_branch := "main", fix_description := "Missing variable azure_region",
       file_changes := [] } : GhPRCall).file_changes = ([] : List (String × String)) :=
  (pr_creation_gets_empty_file_changes.1 (sampleRca 0.95 true) sampleCtx
      (PROutcome.raises "x") 3).1 _ (by decide)

/-- C7 (counterexample): on the scenario's exact log line, classification
does yield `TERRAFORM_MISSING_VARIABLE` with autofix enabled, but the Fix
Generator produces no fix at all: the bare line matches neither the
`variable with the name "X"` error phrase nor any `var.X` occurrence, so no
variable name can be extracted and the returned mapping is empty. -/
theorem missing_variable_fix_empty_on_bare_log :
    generate_missing_variable_fix ""
        (some { build_logs := "Error: Reference to undeclared input variable \"azure_region\"",
                pipeline_id := none }) = [] := by
  decide

/-- C7 (amended): for the scenario log, classification yields category
`TERRAFORM_MISSING_VARIABLE` with can-autofix true; the generator produces
the `variable "azure_region"` declaration with default `"eastus"` once the
logs also carry Terraform's companion line naming the variable (as real
Terraform output does), while the bare one-line log yields no fix. -/
theorem missing_variable_fix_scenario :
    analyze_terraform_failure
        "Error: Reference to undeclared input variable \"azure_region\""
        (Except.ok "") =
      some { category := "TERRAFORM_MISSING_VARIABLE", confidence := 0.95,
             explanation := "", can_autofix := true, suggested_fix := none } ∧
    generate_missing_variable_fix ""
        (some { build_logs := "Error: Reference to undeclared input variable \"azure_region\"\nAn input variable with the name \"azure_region\" has not been declared.",
                pipeline_id := none }) =
      [("infrastructure/core/terraform/variables.tf",
        "variable \"azure_region\" \x7b\n  description = \"Azure region for resource deployment\"\n  type        = string\n  default     = \"eastus\"\n\x7d\n")] ∧
    containsStr
      "variable \"azure_region\" \x7b\n  description = \"Azure region for resource deployment\"\n  type        = string\n  default     = \"eastus\"\n\x7d\n"
      "variable \"azure_region\"" = true ∧
    containsStr
      "variable \"azure_region\" \x7b\n  description = \"Azure region for resource deployment\"\n  type        = string\n  default     = \"eastus\"\n\x7d\n"
      "default     = \"eastus\"" = true := by
  refine ⟨by decide, by decide, by decide, by decide⟩
